import Mathlib

/-!
Shallow embedding of the view-counter service (src/index.ts) and proofs of
its specification properties.

The service keeps one `ViewCountDocument` per repository key, with a view
count and a log of `{ip, timestamp}` attribution entries.  The request
handler looks up (or lazily creates) the document, searches the log for an
entry from the same client newer than one hour, sends the current count if
one is found, then (unconditionally, due to the missing early return in the
source) increments the count, appends a fresh log entry, prunes entries at
least one hour old, saves, and sends the new count.

Timestamps are modelled as integers (milliseconds since the epoch, as in
JavaScript `Date.now()`); both `Date.now()` at line 73 of the source and
`new Date()` at line 92 are modelled by the single instant `now`.  The
store is modelled as a map from repository key to an optional document, and
responses as the list of payloads written to the transport, in order.
-/

namespace ViewsCounter

/-- One attribution entry, mirroring the `IPLog` interface of the source:
an ip string and a timestamp. -/
structure IPLog where
  ip : String
  timestamp : Int
deriving Repr, DecidableEq

/-- The counter record, mirroring `ViewCountDocument` of the source. -/
structure ViewCountDocument where
  repo : String
  views : Nat
  ipLogs : List IPLog
deriving Repr, DecidableEq

/-- The badge payload built at lines 80-85 and 101-106 of the source. -/
structure Badge where
  schemaVersion : Nat
  label : String
  message : String
  color : String
deriving Repr, DecidableEq

/-- The payload `{schemaVersion: 1, label: "Profile View", message:
String(views), color: "blue"}` from the source. -/
def badgeResponse (views : Nat) : Badge :=
  { schemaVersion := 1
    label := "Profile View"
    message := toString views
    color := "blue" }

/-- The dedupe-window length in milliseconds: `60 * 60 * 1000` from line 73
of the source. -/
def oneHourMs : Int := 60 * 60 * 1000

/-- The document the handler works on: the stored one if present, otherwise
the freshly created `new ViewCount({ repo, views: 0, ipLogs: [] })` of
line 68. -/
def getDoc (doc0 : Option ViewCountDocument) (repo : String) : ViewCountDocument :=
  match doc0 with
  | some d => d
  | none => { repo := repo, views := 0, ipLogs := [] }

/-- The predicate of the `find` at lines 74-76 of the source:
`log.ip === userIp && log.timestamp > oneHourAgo`. -/
def isRecent (userIp : String) (oneHourAgo : Int) (log : IPLog) : Bool :=
  log.ip == userIp && decide (oneHourAgo < log.timestamp)

/-- The result of one request: the payloads sent (in order; the transport
delivers the first one to the client) and the document persisted by the
final save. -/
structure HandlerResult where
  sent : List Badge
  doc : ViewCountDocument
deriving Repr, DecidableEq

/-- The body of the `/view/:repo` handler (lines 62-108 of the source), on
the path where no store operation fails.  `doc0` is the result of
`ViewCount.findOne({ repo })`.  Note that after a recent entry is found and
the current count is sent, control falls through (there is no early return
in the source) and the increment, append, prune and save still run. -/
def recordView (doc0 : Option ViewCountDocument) (repo userIp : String) (now : Int) :
    HandlerResult :=
  let countDoc := getDoc doc0 repo
  let oneHourAgo := now - 60 * 60 * 1000
  let recentEntry := countDoc.ipLogs.find? (isRecent userIp oneHourAgo)
  let earlySent : List Badge :=
    match recentEntry with
    | some _ => [badgeResponse countDoc.views]
    | none => []
  let newLogs :=
    (countDoc.ipLogs ++ [({ ip := userIp, timestamp := now } : IPLog)]).filter
      (fun log => decide (oneHourAgo < log.timestamp))
  let doc1 : ViewCountDocument :=
    { countDoc with views := countDoc.views + 1, ipLogs := newLogs }
  { sent := earlySent ++ [badgeResponse doc1.views], doc := doc1 }

/-- The persistence layer: a mapping from repository key to the stored
counter record, as queried by `ViewCount.findOne({ repo })`. -/
def Store := String → Option ViewCountDocument

/-- One request against the store: run the handler body on the record found
at `repo` and persist the resulting document under that key (the save of
line 99; the creation save of line 69 writes the same key and is subsumed
by the final save on the failure-free path). -/
def handleView (store : Store) (repo userIp : String) (now : Int) :
    HandlerResult × Store :=
  let r := recordView (store repo) repo userIp now
  (r, fun k => if k = repo then some r.doc else store k)

/-- One event applied to an in-memory record: the document persisted by a
request from `ev.1` at time `ev.2` for the record's own key. -/
def applyView (doc : ViewCountDocument) (ev : String × Int) : ViewCountDocument :=
  (recordView (some doc) doc.repo ev.1 ev.2).doc

/-- A sequence of requests applied to a record, oldest first. -/
def runSeq (doc : ViewCountDocument) (evs : List (String × Int)) : ViewCountDocument :=
  evs.foldl applyView doc

/-- The handler with the store failure points made explicit, modelling the
`try`/`catch` of lines 62-112.  `failFind` makes `ViewCount.findOne` throw,
`failSave1` makes the creation save of line 69 throw, `failSave2` makes the
final save of line 99 throw; a thrown error reaches the `catch`, which
responds with status 500.  The result is the response status together with
the persisted store; a failing save persists nothing. -/
def runHandler (failFind failSave1 failSave2 : Bool) (store : Store)
    (repo userIp : String) (now : Int) : Nat × Store :=
  if failFind then
    (500, store)
  else
    match store repo with
    | none =>
      if failSave1 then
        (500, store)
      else
        let store1 : Store :=
          fun k => if k = repo then some (ViewCountDocument.mk repo 0 []) else store k
        let r := recordView (some (ViewCountDocument.mk repo 0 [])) repo userIp now
        if failSave2 then (500, store1)
        else (200, fun k => if k = repo then some r.doc else store1 k)
    | some d =>
      let r := recordView (some d) repo userIp now
      if failSave2 then (500, store)
      else (200, fun k => if k = repo then some r.doc else store k)

theorem now_in_window (now : Int) : now - 60 * 60 * 1000 < now := by omega

theorem recordView_doc_views (doc0 : Option ViewCountDocument) (repo userIp : String)
    (now : Int) :
    (recordView doc0 repo userIp now).doc.views = (getDoc doc0 repo).views + 1 := rfl

theorem recordView_doc_ipLogs (doc0 : Option ViewCountDocument) (repo userIp : String)
    (now : Int) :
    (recordView doc0 repo userIp now).doc.ipLogs =
      ((getDoc doc0 repo).ipLogs ++ [({ ip := userIp, timestamp := now } : IPLog)]).filter
        (fun log => decide (now - 60 * 60 * 1000 < log.timestamp)) := rfl

/-- C4: with no existing record, the handler works on a fresh record with
count 0 and empty attributions, established before the dedupe check runs
over its (empty) log, so the first-ever request is a new visit and the only
response reports count 1. -/
theorem first_request_counts_one (repo userIp : String) (now : Int) :
    getDoc none repo = { repo := repo, views := 0, ipLogs := [] } ∧
    ({ repo := repo, views := 0, ipLogs := [] } : ViewCountDocument).ipLogs.find?
      (isRecent userIp (now - 60 * 60 * 1000)) = none ∧
    (recordView none repo userIp now).doc.views = 1 ∧
    (recordView none repo userIp now).sent = [badgeResponse 1] ∧
    badgeResponse 1 =
      { schemaVersion := 1, label := "Profile View", message := "1", color := "blue" } :=
  ⟨rfl, rfl, rfl, rfl, by decide⟩

/-- C7: the reporting projection is a pure total function of the count,
always producing exactly the fixed-shape payload with the count rendered as
its decimal string. -/
theorem badgeResponse_shape (count : Nat) :
    badgeResponse count =
      { schemaVersion := 1
        label := "Profile View"
        message := Nat.repr count
        color := "blue" } := rfl

/-- C1: the repeat-visit branch of the claim fails on the code.  At a
concrete input where the record holds an entry for the same client inside
the window, the recent entry is found and the first response reports the
current count 5 as claimed, but the handler falls through: the persisted
count is 6, not 5, and a new attribution entry for the client is appended,
contradicting the claim that the record is left unchanged. -/
theorem repeat_visit_mutates :
    (⟨"repo1", 5, [⟨"1.2.3.4", 0⟩]⟩ : ViewCountDocument).ipLogs.find?
      (isRecent "1.2.3.4" ((1000 : Int) - 60 * 60 * 1000)) = some ⟨"1.2.3.4", 0⟩ ∧
    (recordView (some ⟨"repo1", 5, [⟨"1.2.3.4", 0⟩]⟩) "repo1" "1.2.3.4" 1000).sent.head? =
      some (badgeResponse 5) ∧
    (recordView (some ⟨"repo1", 5, [⟨"1.2.3.4", 0⟩]⟩) "repo1" "1.2.3.4" 1000).doc.views = 6 ∧
    (⟨"1.2.3.4", 1000⟩ : IPLog) ∈
      (recordView (some ⟨"repo1", 5, [⟨"1.2.3.4", 0⟩]⟩) "repo1" "1.2.3.4" 1000).doc.ipLogs := by
  decide

/-- C2: when no attribution entry for the client lies inside the window,
the persisted count is the previous count plus one and the persisted log
contains the freshly appended entry for the client stamped `now`. -/
theorem new_visit_increments (doc0 : Option ViewCountDocument) (repo userIp : String)
    (now : Int)
    (_h : (getDoc doc0 repo).ipLogs.find? (isRecent userIp (now - 60 * 60 * 1000)) = none) :
    (recordView doc0 repo userIp now).doc.views = (getDoc doc0 repo).views + 1 ∧
    ({ ip := userIp, timestamp := now } : IPLog) ∈
      (recordView doc0 repo userIp now).doc.ipLogs := by
  refine ⟨rfl, ?_⟩
  rw [recordView_doc_ipLogs, List.mem_filter]
  refine ⟨List.mem_append_right _ (List.mem_singleton.mpr rfl), ?_⟩
  simp

theorem new_visit_increments_witness :
    (recordView (some ⟨"repo1", 0, []⟩) "repo1" "1.2.3.4" 0).doc.views = 1 ∧
    ({ ip := "1.2.3.4", timestamp := 0 } : IPLog) ∈
      (recordView (some ⟨"repo1", 0, []⟩) "repo1" "1.2.3.4" 0).doc.ipLogs :=
  new_visit_increments (some ⟨"repo1", 0, []⟩) "repo1" "1.2.3.4" 0 (by decide)

/-- C3: every entry in the document persisted by a request at time `now`
has a timestamp strictly inside the trailing one-hour window; the prune of
lines 95-97 runs after the decision on every path. -/
theorem prune_bound (doc0 : Option ViewCountDocument) (repo userIp : String) (now : Int)
    (log : IPLog) (h : log ∈ (recordView doc0 repo userIp now).doc.ipLogs) :
    now - 60 * 60 * 1000 < log.timestamp := by
  rw [recordView_doc_ipLogs] at h
  have h2 := (List.mem_filter.mp h).2
  simpa using h2

theorem prune_bound_witness :
    ({ ip := "1.2.3.4", timestamp := 0 } : IPLog) ∈
      (recordView none "repo1" "1.2.3.4" 0).doc.ipLogs ∧
    (0 : Int) - 60 * 60 * 1000 < ({ ip := "1.2.3.4", timestamp := 0 } : IPLog).timestamp :=
  ⟨by decide, prune_bound none "repo1" "1.2.3.4" 0 ⟨"1.2.3.4", 0⟩ (by decide)⟩

theorem runSeq_views (evs : List (String × Int)) :
    ∀ doc : ViewCountDocument, (runSeq doc evs).views = doc.views + evs.length := by
  induction evs with
  | nil => intro doc; rfl
  | cons ev evs ih =>
    intro doc
    have h1 : runSeq doc (ev :: evs) = runSeq (applyView doc ev) evs := rfl
    have h2 : (applyView doc ev).views = doc.views + 1 := rfl
    rw [h1, ih, h2, List.length_cons]
    omega

/-- C5: the count never decreases across an operation, and a record that
starts from creation (count 0) holds count `N` after any sequence of `N`
requests, in particular after `N` accepted new visits. -/
theorem views_monotone_and_counts :
    (∀ (doc0 : Option ViewCountDocument) (repo userIp : String) (now : Int),
      (getDoc doc0 repo).views ≤ (recordView doc0 repo userIp now).doc.views) ∧
    (∀ (repo : String) (evs : List (String × Int)),
      (runSeq (getDoc none repo) evs).views = evs.length) := by
  constructor
  · intro doc0 repo userIp now
    rw [recordView_doc_views]
    exact Nat.le_succ _
  · intro repo evs
    rw [runSeq_views]
    exact Nat.zero_add _

/-- C6: when every entry for the client is no newer than `firstTimestamp`
and the request arrives strictly after `firstTimestamp` plus one hour, no
recent entry is found, so the request is treated as a new visit and the
count is incremented. -/
theorem window_expiry_new_visit (doc : ViewCountDocument) (repo userIp : String)
    (firstTimestamp now : Int)
    (hlast : ∀ log ∈ doc.ipLogs, log.ip = userIp → log.timestamp ≤ firstTimestamp)
    (hexp : firstTimestamp + 60 * 60 * 1000 < now) :
    doc.ipLogs.find? (isRecent userIp (now - 60 * 60 * 1000)) = none ∧
    (recordView (some doc) repo userIp now).doc.views = doc.views + 1 := by
  constructor
  · rw [List.find?_eq_none]
    intro log hmem
    have hle := hlast log hmem
    simp only [isRecent, Bool.and_eq_true, beq_iff_eq, decide_eq_true_eq, not_and]
    intro hip hlt
    have := hle hip
    omega
  · rfl

theorem window_expiry_new_visit_witness :
    (⟨"repo1", 1, [⟨"1.2.3.4", 0⟩]⟩ : ViewCountDocument).ipLogs.find?
      (isRecent "1.2.3.4" ((3600001 : Int) - 60 * 60 * 1000)) = none ∧
    (recordView (some ⟨"repo1", 1, [⟨"1.2.3.4", 0⟩]⟩) "repo1" "1.2.3.4" 3600001).doc.views
      = 2 :=
  window_expiry_new_visit ⟨"repo1", 1, [⟨"1.2.3.4", 0⟩]⟩ "repo1" "1.2.3.4" 0 3600001
    (by decide) (by decide)

/-- C8: a store failure anywhere in the read-decide-write sequence is
caught at the request boundary and surfaces as status 500, and a failure
before any store write (the lookup, or the creation save) leaves the
persisted store exactly as it was. -/
theorem failures_give_500 (failFind failSave1 failSave2 : Bool) (store : Store)
    (repo userIp : String) (now : Int) :
    (failFind = true →
      runHandler failFind failSave1 failSave2 store repo userIp now = (500, store)) ∧
    (failFind = false → store repo = none → failSave1 = true →
      runHandler failFind failSave1 failSave2 store repo userIp now = (500, store)) ∧
    (failFind = false → failSave2 = true →
      (runHandler failFind failSave1 failSave2 store repo userIp now).1 = 500) := by
  refine ⟨?_, ?_, ?_⟩
  · intro h
    simp [runHandler, h]
  · intro h1 h2 h3
    simp [runHandler, h1, h2, h3]
  · intro h1 h2
    cases hs : store repo with
    | none =>
      cases h3 : failSave1 with
      | true => simp [runHandler, h1, hs, h3]
      | false => simp [runHandler, h1, hs, h3, h2]
    | some d => simp [runHandler, h1, hs, h2]

theorem failures_give_500_witness :
    runHandler true false false (fun _ => none) "repo1" "1.2.3.4" 0 =
      (500, fun _ => none) :=
  (failures_give_500 true false false (fun _ => none) "repo1" "1.2.3.4" 0).1 rfl

/-- C9: a request for key `a` writes only the record stored under `a`, and
its outcome depends only on the record stored under `a`: records under any
other key are neither mutated nor read. -/
theorem key_isolation :
    (∀ (store : Store) (a b userIp : String) (now : Int), b ≠ a →
      (handleView store a userIp now).2 b = store b) ∧
    (∀ (s1 s2 : Store) (a userIp : String) (now : Int), s1 a = s2 a →
      (handleView s1 a userIp now).1 = (handleView s2 a userIp now).1) := by
  constructor
  · intro store a b userIp now hne
    simp [handleView, hne]
  · intro s1 s2 a userIp now h
    simp only [handleView]
    rw [h]

theorem key_isolation_witness :
    (handleView (fun _ => none) "repoA" "1.2.3.4" 0).2 "repoB" =
      (fun _ => (none : Option ViewCountDocument)) "repoB" :=
  key_isolation.1 (fun _ => none) "repoA" "repoB" "1.2.3.4" 0 (by decide)

/-- C10: the document persisted by any completed request contains at least
one entry for the requesting client with a timestamp strictly inside the
trailing one-hour window: the entry appended at `now` always survives the
prune, which removes only entries at or before `now` minus one hour. -/
theorem client_entry_survives (doc0 : Option ViewCountDocument) (repo userIp : String)
    (now : Int) :
    ∃ log ∈ (recordView doc0 repo userIp now).doc.ipLogs,
      log.ip = userIp ∧ now - 60 * 60 * 1000 < log.timestamp := by
  refine ⟨⟨userIp, now⟩, ?_, rfl, now_in_window now⟩
  rw [recordView_doc_ipLogs, List.mem_filter]
  exact ⟨List.mem_append_right _ (List.mem_singleton.mpr rfl), by simp⟩

end ViewsCounter
